import Mathlib

/-!
Verification development for the game client in `src/game.js` (class `GameClient`).

The client's mutable state (player map, avatar tables, chat-bubble map, camera,
sound cooldown, key set) is embedded as explicit Lean structures, and each
method touched by the specification's claims is translated into a pure state
transformer that additionally returns the list of observable effects the method
performs (renders, camera recomputations, image fetches, sounds, outbound
sends, log lines).  JavaScript `Map` objects are embedded as ordered
association lists with JS `Map.set` / `Map.get` / `Map.delete` semantics, and
thrown JS exceptions are made explicit in a `HandlerResult` record that carries
the (possibly partially mutated) state at the point of the throw.
-/

set_option autoImplicit false

/-- Ordered association list embedding of a JavaScript `Map` with string keys. -/
abbrev JsMap (α : Type) : Type := List (String × α)

/-- JS `Map.prototype.set`: replace the value at an existing key in place,
otherwise append the new entry at the end. -/
def JsMap.set {α : Type} : JsMap α → String → α → JsMap α
  | [], k, v => [(k, v)]
  | (k', v') :: rest, k, v =>
    if k' = k then (k, v) :: rest else (k', v') :: JsMap.set rest k v

/-- JS `Map.prototype.get`: the value at the key, or `undefined` (`none`). -/
def JsMap.get? {α : Type} : JsMap α → String → Option α
  | [], _ => none
  | (k', v') :: rest, k => if k' = k then some v' else JsMap.get? rest k

/-- JS `Map.prototype.delete`. -/
def JsMap.del {α : Type} (m : JsMap α) (k : String) : JsMap α :=
  m.filter (fun p => p.1 != k)

/-- JS `Map.prototype.has`. -/
def JsMap.hasKey {α : Type} (m : JsMap α) (k : String) : Bool :=
  (m.get? k).isSome

/-- One player record as stored in `this.allPlayers` (parsed server JSON). -/
structure Player where
  id : String
  x : Rat
  y : Rat
  facing : String
  animationFrame : Nat
  username : String
  avatar : String
  isMoving : Bool
deriving DecidableEq

/-- An avatar definition: `name` plus direction-indexed frame-source lists. -/
structure Avatar where
  name : String
  frames : List (String × List String)
deriving DecidableEq

/-- A cached avatar entry in `this.avatarImages` (loaded `Image` handles are
represented by their `src` strings). -/
structure AvatarData where
  name : String
  frames : List (String × List String)
deriving DecidableEq

/-- A chat-bubble entry in `this.chatMessages`. -/
structure ChatData where
  message : String
  timestamp : Nat
deriving DecidableEq

/-- Outbound protocol messages built by the client. -/
inductive OutMsg where
  | chat (message : String)
  | move (direction : String)
  | moveTo (x y : Int)
  | stop
deriving DecidableEq

/-- Observable effects a handler performs besides mutating the client state. -/
inductive Effect where
  | render
  | cameraRecompute
  | footstepAttempt
  | footstepPlay
  | fetchImage (src : String)
  | sendMsg (m : OutMsg)
  | logUnknown (action : String)
  | logJoinError
  | logCaughtError
deriving DecidableEq

/-- A thrown JavaScript exception. -/
inductive JsError where
  | typeError (what : String)
deriving DecidableEq

/-- Inbound server messages after JSON parsing; a missing field is `none`. -/
inductive ServerMsg where
  | joinGame (success : Bool) (playerId : Option String)
      (players : Option (JsMap Player)) (avatars : Option (JsMap Avatar))
  | playersMoved (players : Option (JsMap Player))
  | playerJoined (player : Option Player) (avatar : Option Avatar)
  | playerLeft (playerId : Option String)
  | chat (playerId : Option String) (message : Option String)
  | unknown (action : String)

/-- The mutable fields of the `GameClient` instance used by the claims. -/
structure GameState where
  myPlayerId : Option String
  myPlayer : Option Player
  allPlayers : JsMap Player
  avatars : JsMap Avatar
  avatarImages : JsMap AvatarData
  cameraX : Rat
  cameraY : Rat
  canvasWidth : Rat
  canvasHeight : Rat
  worldWidth : Rat
  worldHeight : Rat
  chatMessages : JsMap ChatData
  lastFootstepTime : Nat
  soundEnabled : Bool
  hasFootstepBuffer : Bool
  wsOpen : Bool
deriving DecidableEq

/-- Result of running a message handler: the exception (if one escaped), the
state at return or at the point of the throw, and the effects performed. -/
structure HandlerResult where
  err : Option JsError
  state : GameState
  effects : List Effect
deriving DecidableEq

/-- `this.footstepCooldown = 300`. -/
def footstepCooldown : Nat := 300

/-- `this.chatDuration = 3000`. -/
def chatDuration : Nat := 3000

/-- JS truthiness of a string-or-undefined value (`undefined` and `""` are
falsy). -/
def truthyStr : Option String → Bool
  | none => false
  | some s => s != ""

/-- `updateCamera` (`src/game.js` lines 514-524): center on `this.myPlayer`,
then clamp each axis to the world; no-op when `this.myPlayer` is unset.  Note
that it reads `this.myPlayer`, not `this.allPlayers.get(this.myPlayerId)`. -/
def updateCamera (st : GameState) : GameState :=
  match st.myPlayer with
  | none => st
  | some p =>
    { st with
      cameraX := max 0 (min (p.x - st.canvasWidth / 2) (st.worldWidth - st.canvasWidth)),
      cameraY := max 0 (min (p.y - st.canvasHeight / 2) (st.worldHeight - st.canvasHeight)) }

/-- `playFootstepSound` (lines 356-370): gated by `soundEnabled`, the built
footstep buffer, and the 300 ms cooldown against `Date.now()` (`now`). -/
def playFootstepSound (st : GameState) (now : Nat) : GameState × List Effect :=
  if st.soundEnabled && st.hasFootstepBuffer then
    if now - st.lastFootstepTime < footstepCooldown then (st, [])
    else ({ st with lastFootstepTime := now }, [Effect.footstepPlay])
  else (st, [])

/-- The times at which repeated `playFootstepSound` calls actually start the
buffer, threading the cooldown state through the call sequence. -/
def fireTimes (st : GameState) : List Nat → List Nat
  | [] => []
  | t :: ts =>
    let r := playFootstepSound st t
    if r.2.isEmpty then fireTimes r.1 ts else t :: fireTimes r.1 ts

/-- `loadAvatarImage` (lines 493-512): a no-op when `this.avatarImages`
already has the avatar's name; otherwise creates one `Image` per
(direction, frame) pair and caches the handles immediately. -/
def loadAvatarImage (st : GameState) (a : Avatar) : GameState × List Effect :=
  if st.avatarImages.hasKey a.name then (st, [])
  else
    ({ st with avatarImages := st.avatarImages.set a.name { name := a.name, frames := a.frames } },
     a.frames.flatMap (fun df => df.2.map Effect.fetchImage))

/-- Total number of (direction, frame) pairs in an avatar definition. -/
def totalFrameCount (a : Avatar) : Nat :=
  (a.frames.map (fun df => df.2.length)).sum

/-- `this.avatarImages.has(avatarKey)` as used by the cache. -/
def hasLoaded (st : GameState) (avatarId : String) : Bool :=
  st.avatarImages.hasKey avatarId

/-- The loop body of `loadAvatarImages` (lines 487-491) over an avatar list. -/
def loadAvatarImagesList : GameState → List (String × Avatar) → GameState × List Effect
  | st, [] => (st, [])
  | st, (_, a) :: rest =>
    let r := loadAvatarImage st a
    let r2 := loadAvatarImagesList r.1 rest
    (r2.1, r.2 ++ r2.2)

/-- `loadAvatarImages` (lines 487-491): preload every avatar in `this.avatars`. -/
def loadAvatarImages (st : GameState) : GameState × List Effect :=
  loadAvatarImagesList st st.avatars

/-- The `players_moved` per-entry loop (lines 447-454): upsert each record
into `this.allPlayers` and, for the local moving player, call
`playFootstepSound` (the call itself is recorded as `footstepAttempt`). -/
def applyMovedBatch (now : Nat) : GameState → List (String × Player) → GameState × List Effect
  | st, [] => (st, [])
  | st, (pid, p) :: rest =>
    let st1 := { st with allPlayers := st.allPlayers.set pid p }
    if st1.myPlayerId == some pid && p.isMoving then
      let r := playFootstepSound st1 now
      let r2 := applyMovedBatch now r.1 rest
      (r2.1, Effect.footstepAttempt :: r.2 ++ r2.2)
    else
      let r2 := applyMovedBatch now st1 rest
      (r2.1, r2.2)

/-- `handleServerMessage` (lines 429-485).  Field accesses that throw in JS
(`Object.entries(undefined)`, `message.player.id`) surface as a `typeError`
in `err`, with the state as mutated up to the throw point.  `this.myPlayer`
is only ever assigned in the `join_game` branch, mirroring the source. -/
def handleServerMessage (st : GameState) (msg : ServerMsg) (now : Nat) : HandlerResult :=
  match msg with
  | .joinGame success pid players avatarTable =>
    if success then
      let st1 := { st with myPlayerId := pid }
      match players with
      | none => ⟨some (.typeError "players"), st1, []⟩
      | some ps =>
        let st2 := { st1 with allPlayers := ps }
        match avatarTable with
        | none => ⟨some (.typeError "avatars"), st2, []⟩
        | some avs =>
          let st3 := { st2 with
            avatars := avs,
            myPlayer := match pid with | some k => ps.get? k | none => none }
          let r := loadAvatarImages st3
          ⟨none, updateCamera r.1, r.2 ++ [Effect.cameraRecompute, Effect.render]⟩
    else ⟨none, st, [Effect.logJoinError]⟩
  | .playersMoved players =>
    match players with
    | none => ⟨some (.typeError "players"), st, []⟩
    | some batch =>
      let r := applyMovedBatch now st batch
      ⟨none, updateCamera r.1, r.2 ++ [Effect.cameraRecompute, Effect.render]⟩
  | .playerJoined player avatar =>
    match player with
    | none => ⟨some (.typeError "player"), st, []⟩
    | some p =>
      let st1 := { st with allPlayers := st.allPlayers.set p.id p }
      match avatar with
      | none => ⟨some (.typeError "avatar"), st1, []⟩
      | some a =>
        let st2 := { st1 with avatars := st1.avatars.set a.name a }
        let r := loadAvatarImage st2 a
        ⟨none, r.1, r.2 ++ [Effect.render]⟩
  | .playerLeft pid =>
    match pid with
    | some k => ⟨none, { st with allPlayers := st.allPlayers.del k }, [Effect.render]⟩
    | none => ⟨none, st, [Effect.render]⟩
  | .chat pid text =>
    match pid, text with
    | some k, some m =>
      if k ≠ "" ∧ m ≠ "" then
        ⟨none, { st with chatMessages := st.chatMessages.set k ⟨m, now⟩ }, [Effect.render]⟩
      else ⟨none, st, []⟩
    | _, _ => ⟨none, st, []⟩
  | .unknown a => ⟨none, st, [Effect.logUnknown a]⟩

/-- The `ws.onmessage` wrapper (lines 401-408): any exception thrown while
handling a message is caught and logged, so processing continues. -/
def onMessage (st : GameState) (msg : ServerMsg) (now : Nat) : GameState × List Effect :=
  let r := handleServerMessage st msg now
  match r.err with
  | some _ => (r.state, r.effects ++ [Effect.logCaughtError])
  | none => (r.state, r.effects)

/-- The overlay-visibility read of `drawChatBubble` (lines 162-170): look up
the bubble, delete-and-hide it when `now - timestamp > chatDuration`,
otherwise keep it visible.  Returns the visibility plus the updated map. -/
def chatBubbleVisible (m : JsMap ChatData) (pid : String) (now : Nat) :
    Bool × JsMap ChatData :=
  match m.get? pid with
  | none => (false, m)
  | some cd =>
    if now - cd.timestamp > chatDuration then (false, m.del pid) else (true, m)

/-- `sendChatMessage` (lines 98-116): drop everything unless the socket is
open; then optimistically echo the bubble for a truthy `myPlayerId` (with a
redraw) and send the chat action. -/
def sendChatMessage (st : GameState) (msg : String) (now : Nat) :
    GameState × List Effect :=
  if st.wsOpen then
    let echoed :=
      match st.myPlayerId with
      | some pid =>
        if pid != "" then
          ({ st with chatMessages := st.chatMessages.set pid ⟨msg, now⟩ },
           [Effect.render])
        else (st, ([] : List Effect))
      | none => (st, ([] : List Effect))
    (echoed.1, echoed.2 ++ [Effect.sendMsg (OutMsg.chat msg)])
  else (st, [])

/-- The outbound join record built by `joinGame` (lines 420-427). -/
structure OutJoinMsg where
  action : String
  username : String
deriving DecidableEq

/-- `joinGame` sends exactly this record on `ws.onopen`. -/
def joinGameMessage : OutJoinMsg := { action := "join_game", username := "Tim" }

/-- The input-translator slice of the client state (`pressedKeys`,
`isMoving`, `currentDirection`) plus the socket-open flag consulted by the
send helpers. -/
structure InputState where
  pressedKeys : List String
  isMoving : Bool
  currentDirection : Option String
  wsOpen : Bool
deriving DecidableEq

/-- `getDirectionFromKey` (lines 240-253). -/
def getDirectionFromKey (key : String) : Option String :=
  if key = "ArrowUp" then some "up"
  else if key = "ArrowDown" then some "down"
  else if key = "ArrowLeft" then some "left"
  else if key = "ArrowRight" then some "right"
  else none

/-- `sendMoveCommand` (lines 255-264): dropped when the socket is closed. -/
def sendMoveCommand (s : InputState) (direction : String) : List OutMsg :=
  if s.wsOpen then [OutMsg.move direction] else []

/-- `sendStopCommand` (lines 266-274): dropped when the socket is closed. -/
def sendStopCommand (s : InputState) : List OutMsg :=
  if s.wsOpen then [OutMsg.stop] else []

/-- `handleKeyDown` (lines 212-222). -/
def handleKeyDown (s : InputState) (key : String) : InputState × List OutMsg :=
  match getDirectionFromKey key with
  | some direction =>
    if s.pressedKeys.contains key then (s, [])
    else
      ({ s with pressedKeys := s.pressedKeys ++ [key], isMoving := true,
                currentDirection := some direction },
       sendMoveCommand s direction)
  | none => (s, [])

/-- `handleKeyUp` (lines 224-238). -/
def handleKeyUp (s : InputState) (key : String) : InputState × List OutMsg :=
  match getDirectionFromKey key with
  | some _ =>
    if s.pressedKeys.contains key then
      let remaining := s.pressedKeys.filter (fun x => x != key)
      if remaining.isEmpty then
        ({ s with pressedKeys := remaining, isMoving := false, currentDirection := none },
         sendStopCommand s)
      else ({ s with pressedKeys := remaining }, [])
    else (s, [])
  | none => (s, [])

/-- A raw keyboard event. -/
inductive KeyEvent where
  | down (key : String)
  | up (key : String)

/-- Run a sequence of keyboard events through the two key handlers,
collecting the outbound intents in order. -/
def runKeys (s : InputState) : List KeyEvent → InputState × List OutMsg
  | [] => (s, [])
  | e :: es =>
    let r := match e with
      | .down k => handleKeyDown s k
      | .up k => handleKeyUp s k
    let r2 := runKeys r.1 es
    (r2.1, r.2 ++ r2.2)

/-- A freshly constructed client (constructor plus `setupSounds`) with an
800 × 600 canvas; the socket-open flag is a parameter. -/
def baseState (wsOpenFlag : Bool) : GameState :=
  { myPlayerId := none, myPlayer := none, allPlayers := [], avatars := [],
    avatarImages := [], cameraX := 0, cameraY := 0,
    canvasWidth := 800, canvasHeight := 600, worldWidth := 2048, worldHeight := 2048,
    chatMessages := [], lastFootstepTime := 0, soundEnabled := true,
    hasFootstepBuffer := true, wsOpen := wsOpenFlag }

/-- Player `p1` at (100, 100), not moving, as delivered in the join payload. -/
def p1AtJoin : Player :=
  { id := "p1", x := 100, y := 100, facing := "south", animationFrame := 0,
    username := "Tim", avatar := "adventurer", isMoving := false }

/-- Player `p1` at (1000, 1000), moving, as delivered by `players_moved`. -/
def p1Moved : Player :=
  { id := "p1", x := 1000, y := 1000, facing := "south", animationFrame := 0,
    username := "Tim", avatar := "adventurer", isMoving := true }

/-- Successful `join_game` reply for the scenario: `p1` at (100, 100). -/
def joinReply : ServerMsg :=
  ServerMsg.joinGame true (some "p1") (some [("p1", p1AtJoin)]) (some [])

/-- `players_moved` batch moving `p1` to (1000, 1000). -/
def movedMsg : ServerMsg := ServerMsg.playersMoved (some [("p1", p1Moved)])

/-- Client state after processing the join reply. -/
def stateAfterJoin : GameState := (handleServerMessage (baseState true) joinReply 0).state

/-- Client state after the subsequent `players_moved`. -/
def stateAfterMove : GameState := (handleServerMessage stateAfterJoin movedMsg 1000).state

/-- A client whose `myPlayer` sits at (1000, 1000): used to evaluate the
camera clamp at a concrete interior point. -/
def camInteriorState : GameState :=
  { baseState true with myPlayer := some p1Moved }

/-- A client whose world (100 × 100) is smaller than its viewport. -/
def camSmallWorldState : GameState :=
  { baseState true with myPlayer := some p1Moved, worldWidth := 100, worldHeight := 100 }

/-- Input-translator state with no keys pressed and an open socket. -/
def initInput : InputState :=
  { pressedKeys := [], isMoving := false, currentDirection := none, wsOpen := true }

/-- Input-translator state holding one pressed arrow key. -/
def heldInput : InputState :=
  { pressedKeys := ["ArrowUp"], isMoving := true, currentDirection := some "up", wsOpen := true }

/-- A client that already cached avatar `"b"` but not avatar `"a"`. -/
def cacheState : GameState :=
  { baseState true with
    avatarImages := [("b", { name := "b", frames := [("south", ["s0"])] })] }

/-- A two-direction, three-frame avatar definition used as load input. -/
def avatarA : Avatar :=
  { name := "a", frames := [("north", ["n0", "n1"]), ("south", ["s0"])] }

/-- A client with open socket and local identity `"p1"`. -/
def identifiedState : GameState :=
  { baseState true with myPlayerId := some "p1" }

theorem JsMap.get_set_self {α : Type} (m : JsMap α) (k : String) (v : α) :
    (m.set k v).get? k = some v := by
  induction m with
  | nil => simp [JsMap.set, JsMap.get?]
  | cons hd tl ih =>
    obtain ⟨k', v'⟩ := hd
    by_cases hk : k' = k
    · simp [JsMap.set, JsMap.get?, hk]
    · simp [JsMap.set, JsMap.get?, hk, ih]

theorem JsMap.get_set_ne {α : Type} (m : JsMap α) (k x : String) (v : α)
    (hx : x ≠ k) : (m.set k v).get? x = m.get? x := by
  have hkx : k ≠ x := Ne.symm hx
  induction m with
  | nil => simp [JsMap.set, JsMap.get?, hkx]
  | cons hd tl ih =>
    obtain ⟨k', v'⟩ := hd
    by_cases hk : k' = k
    · subst hk
      simp [JsMap.set, JsMap.get?, hkx]
    · simp only [JsMap.set, if_neg hk, JsMap.get?]
      by_cases hk' : k' = x
      · simp [hk']
      · simp [hk', ih]

theorem JsMap.get_del_self {α : Type} (m : JsMap α) (k : String) :
    (m.del k).get? k = none := by
  induction m with
  | nil => simp [JsMap.del, JsMap.get?]
  | cons hd tl ih =>
    obtain ⟨k', v'⟩ := hd
    by_cases hk : k' = k
    · simpa [JsMap.del, List.filter_cons, hk] using ih
    · simpa [JsMap.del, List.filter_cons, hk, JsMap.get?] using ih

theorem JsMap.hasKey_set_self {α : Type} (m : JsMap α) (k : String) (v : α) :
    (m.set k v).hasKey k = true := by
  simp [JsMap.hasKey, JsMap.get_set_self]

theorem JsMap.hasKey_set_of {α : Type} (m : JsMap α) (k x : String) (v : α)
    (h : m.hasKey x = true) : (m.set k v).hasKey x = true := by
  by_cases hx : x = k
  · subst hx; exact JsMap.hasKey_set_self m x v
  · simpa [JsMap.hasKey, JsMap.get_set_ne m k x v hx] using h

/-- C2 counterexample: an overlay written at `t0 = 0` is still reported
visible at `now = 3000 = t0 + TTL`, because `drawChatBubble` expires only
when `now - timestamp > 3000`; the claim demands invisibility at
`now ≥ t0 + 3000`. -/
theorem overlay_visible_at_ttl_boundary :
    (chatBubbleVisible (JsMap.set ([] : JsMap ChatData) "p1" ⟨"hi", 0⟩) "p1" 3000).1
      = true := by
  decide

/-- C2 (amended): an overlay created at `t0` is visible for every read at
`now ≤ t0 + 3000` (leaving the map unchanged) and invisible for every read
at `now > t0 + 3000`, which also deletes the entry; a second overlay write
for the same entity replaces the entry, resetting its timestamp. -/
theorem overlay_ttl (m : JsMap ChatData) (pid text text2 : String) (t0 now t1 : Nat) :
    (now ≤ t0 + chatDuration →
      chatBubbleVisible (m.set pid ⟨text, t0⟩) pid now = (true, m.set pid ⟨text, t0⟩))
    ∧ (t0 + chatDuration < now →
      (chatBubbleVisible (m.set pid ⟨text, t0⟩) pid now).1 = false
      ∧ (chatBubbleVisible (m.set pid ⟨text, t0⟩) pid now).2.get? pid = none)
    ∧ ((m.set pid ⟨text, t0⟩).set pid ⟨text2, t1⟩).get? pid = some ⟨text2, t1⟩ := by
  refine ⟨?_, ?_, JsMap.get_set_self _ _ _⟩
  · intro h
    have hvis : ¬ now - t0 > chatDuration := by
      unfold chatDuration at h ⊢; omega
    simp [chatBubbleVisible, JsMap.get_set_self, hvis]
  · intro h
    have hvis : now - t0 > chatDuration := by
      unfold chatDuration at h ⊢; omega
    simp [chatBubbleVisible, JsMap.get_set_self, hvis, JsMap.get_del_self]

/-- Witness for the amended C2 theorem at concrete inputs. -/
theorem overlay_ttl_witness :
    chatBubbleVisible (JsMap.set ([] : JsMap ChatData) "p1" ⟨"hi", 0⟩) "p1" 1000
      = (true, JsMap.set ([] : JsMap ChatData) "p1" ⟨"hi", 0⟩)
    ∧ (chatBubbleVisible (JsMap.set ([] : JsMap ChatData) "p1" ⟨"hi", 0⟩) "p1" 4000).1
      = false :=
  ⟨(overlay_ttl [] "p1" "hi" "x" 0 1000 0).1 (by decide),
   ((overlay_ttl [] "p1" "hi" "x" 0 4000 0).2.1 (by decide)).1⟩

/-- C3 counterexample: a `players_moved` message with no `players` field is
not warned about and ignored by the dispatcher; `Object.entries(undefined)`
raises a TypeError that escapes `handleServerMessage`, and no warning is
logged by the dispatcher. -/
theorem players_moved_missing_batch_error :
    (handleServerMessage (baseState true) (ServerMsg.playersMoved none) 0).err
      = some (JsError.typeError "players")
    ∧ (handleServerMessage (baseState true) (ServerMsg.playersMoved none) 0).effects
      = [] :=
  ⟨rfl, rfl⟩

/-- C3 (amended): a `players_moved` message lacking its batch makes the
dispatcher raise a TypeError before any state mutation (with no logged
warning from the dispatcher); the `ws.onmessage` wrapper catches and logs
the error, leaving all state unchanged, so later messages keep being
processed.  An `entity-left` message lacking its identifier raises nothing:
the deletion is a silent no-op and a render is still requested. -/
theorem missing_field_handling (st : GameState) (now : Nat) :
    handleServerMessage st (ServerMsg.playersMoved none) now
      = ⟨some (JsError.typeError "players"), st, []⟩
    ∧ onMessage st (ServerMsg.playersMoved none) now = (st, [Effect.logCaughtError])
    ∧ handleServerMessage st (ServerMsg.playerLeft none) now
      = ⟨none, st, [Effect.render]⟩ :=
  ⟨rfl, rfl, rfl⟩

/-- C6 counterexample: the outbound join intent's action field is the string
"join_game", not "join" as claimed. -/
theorem join_action_not_join : ¬ joinGameMessage.action = "join" := by
  decide

/-- C6 (amended): the outbound join intent sent on connection open is a
record whose action field equals "join_game" together with the username
string "Tim". -/
theorem join_message_shape :
    joinGameMessage.action = "join_game" ∧ joinGameMessage.username = "Tim" :=
  ⟨rfl, rfl⟩

/-- C10: a chat send on a non-open channel leaves the whole client state
unchanged and performs no effect at all (no echo overlay, no render, no
send); furthermore any run of `sendChatMessage` that changes the overlay map
must have had an open channel and a truthy local identity. -/
theorem chat_send_requires_open (st : GameState) (msg : String) (now : Nat) :
    (st.wsOpen = false → sendChatMessage st msg now = (st, []))
    ∧ ((sendChatMessage st msg now).1.chatMessages ≠ st.chatMessages →
        st.wsOpen = true ∧ truthyStr st.myPlayerId = true) := by
  constructor
  · intro h
    simp [sendChatMessage, h]
  · intro h
    by_cases hw : st.wsOpen = true
    · refine ⟨hw, ?_⟩
      match hmp : st.myPlayerId with
      | none =>
        exact absurd (by simp [sendChatMessage, hw, hmp]) h
      | some pid =>
        by_cases hp : pid != ""
        · simpa [truthyStr, hmp] using hp
        · exact absurd (by simp [sendChatMessage, hw, hmp, hp]) h
    · have hw' : st.wsOpen = false := by
        simpa using hw
      exact absurd (by simp [sendChatMessage, hw']) h

/-- Witness for C10: a closed-channel send is a full no-op, and the
identified open-channel client that does echo satisfies the two conditions. -/
theorem chat_send_requires_open_witness :
    sendChatMessage (baseState false) "hello" 5 = (baseState false, [])
    ∧ (identifiedState.wsOpen = true ∧ truthyStr identifiedState.myPlayerId = true) :=
  ⟨(chat_send_requires_open (baseState false) "hello" 5).1 rfl,
   (chat_send_requires_open identifiedState "hello" 5).2 (by decide)⟩

theorem playFootstepSound_myPlayerId (st : GameState) (now : Nat) :
    (playFootstepSound st now).1.myPlayerId = st.myPlayerId := by
  unfold playFootstepSound
  split
  · split <;> rfl
  · rfl

theorem playFootstepSound_cases (st : GameState) (t : Nat) :
    playFootstepSound st t = (st, [])
    ∨ (st.lastFootstepTime + footstepCooldown ≤ t
      ∧ playFootstepSound st t
          = ({ st with lastFootstepTime := t }, [Effect.footstepPlay])) := by
  unfold playFootstepSound
  split
  · split
    · exact Or.inl rfl
    · rename_i hcool
      refine Or.inr ⟨?_, rfl⟩
      simp only [footstepCooldown] at hcool ⊢
      omega
  · exact Or.inl rfl

theorem playFootstepSound_count_other (st : GameState) (now : Nat) (e : Effect)
    (h : e ≠ Effect.footstepPlay) : (playFootstepSound st now).2.count e = 0 := by
  rcases playFootstepSound_cases st now with hq | ⟨_, hq⟩ <;> rw [hq] <;>
    simp [List.count_cons, Ne.symm h]

theorem applyMovedBatch_myPlayerId (now : Nat) (l : List (String × Player)) :
    ∀ st : GameState, (applyMovedBatch now st l).1.myPlayerId = st.myPlayerId := by
  induction l with
  | nil => intro st; simp [applyMovedBatch]
  | cons hd tl ih =>
    intro st
    obtain ⟨pid, p⟩ := hd
    by_cases hc : (st.myPlayerId == some pid && p.isMoving) = true
    · simp [applyMovedBatch, hc, ih, playFootstepSound_myPlayerId]
    · simp [applyMovedBatch, hc, ih]

theorem applyMovedBatch_count_other (now : Nat) (e : Effect)
    (h1 : e ≠ Effect.footstepAttempt) (h2 : e ≠ Effect.footstepPlay)
    (l : List (String × Player)) :
    ∀ st : GameState, (applyMovedBatch now st l).2.count e = 0 := by
  induction l with
  | nil => intro st; simp [applyMovedBatch]
  | cons hd tl ih =>
    intro st
    obtain ⟨pid, p⟩ := hd
    by_cases hc : (st.myPlayerId == some pid && p.isMoving) = true
    · simp [applyMovedBatch, hc, List.count_cons, List.count_append, ih,
        playFootstepSound_count_other _ _ _ h2, Ne.symm h1]
    · simp [applyMovedBatch, hc, ih]

theorem applyMovedBatch_attempt_count (now : Nat) (l : List (String × Player)) :
    ∀ st : GameState,
      (applyMovedBatch now st l).2.count Effect.footstepAttempt
        = l.countP (fun e => st.myPlayerId == some e.1 && e.2.isMoving) := by
  induction l with
  | nil => intro st; simp [applyMovedBatch]
  | cons hd tl ih =>
    intro st
    obtain ⟨pid, p⟩ := hd
    by_cases hc : (st.myPlayerId == some pid && p.isMoving) = true
    · have hmy := playFootstepSound_myPlayerId
        { st with allPlayers := st.allPlayers.set pid p } now
      simp [applyMovedBatch, hc, List.count_cons, List.count_append,
        List.countP_cons, ih, hmy,
        playFootstepSound_count_other _ now Effect.footstepAttempt (by decide)]
    · simp [applyMovedBatch, hc, List.countP_cons, ih]

theorem fireTimes_spec (ts : List Nat) :
    ∀ st : GameState,
      (∀ t ∈ fireTimes st ts, st.lastFootstepTime + footstepCooldown ≤ t)
      ∧ List.Chain' (fun a b => a + footstepCooldown ≤ b) (fireTimes st ts) := by
  induction ts with
  | nil => intro st; simp [fireTimes]
  | cons t ts ih =>
    intro st
    rcases playFootstepSound_cases st t with h | ⟨hle, h⟩
    · have hft : fireTimes st (t :: ts) = fireTimes st ts := by
        simp [fireTimes, h]
      rw [hft]
      exact ih st
    · have hft : fireTimes st (t :: ts)
          = t :: fireTimes { st with lastFootstepTime := t } ts := by
        simp [fireTimes, h]
      rw [hft]
      obtain ⟨hall, hchain⟩ := ih { st with lastFootstepTime := t }
      have hall' : ∀ u ∈ fireTimes { st with lastFootstepTime := t } ts,
          t + footstepCooldown ≤ u := by
        intro u hu
        simpa using hall u hu
      constructor
      · intro u hu
        rcases List.mem_cons.mp hu with rfl | hu2
        · exact hle
        · have h2 := hall' u hu2
          omega
      · rw [List.chain'_cons']
        refine ⟨?_, hchain⟩
        intro b hb
        exact hall' b (List.mem_of_mem_head? hb)

/-- C7: a `players_moved` message with any batch recomputes the camera
exactly once and requests exactly one render, after the whole batch, and
never throws — independently of the batch length. -/
theorem players_moved_single_recompute (st : GameState) (batch : JsMap Player) (now : Nat) :
    (handleServerMessage st (ServerMsg.playersMoved (some batch)) now).effects.count
        Effect.cameraRecompute = 1
    ∧ (handleServerMessage st (ServerMsg.playersMoved (some batch)) now).effects.count
        Effect.render = 1
    ∧ (handleServerMessage st (ServerMsg.playersMoved (some batch)) now).err = none := by
  refine ⟨?_, ?_, rfl⟩
  · simp [handleServerMessage, List.count_append, List.count_cons,
      applyMovedBatch_count_other now Effect.cameraRecompute (by decide) (by decide) batch st]
  · simp [handleServerMessage, List.count_append, List.count_cons,
      applyMovedBatch_count_other now Effect.render (by decide) (by decide) batch st]

/-- C8: consecutive actual footstep starts across any sequence of
`playFootstepSound` calls are at least 300 ms apart (the cooldown state is
threaded through the calls), and within a `players_moved` batch the call is
attempted exactly for the entries whose identifier equals the local identity
with a true moving flag. -/
theorem footstep_cooldown_gate (st : GameState) (ts : List Nat)
    (batch : JsMap Player) (now : Nat) :
    List.Chain' (fun a b => a + footstepCooldown ≤ b) (fireTimes st ts)
    ∧ (handleServerMessage st (ServerMsg.playersMoved (some batch)) now).effects.count
        Effect.footstepAttempt
      = batch.countP (fun e => st.myPlayerId == some e.1 && e.2.isMoving) := by
  refine ⟨(fireTimes_spec ts st).2, ?_⟩
  simp [handleServerMessage, List.count_append, List.count_cons,
    applyMovedBatch_attempt_count now batch st]

theorem clamp_bounds (v B : Rat) :
    0 ≤ max 0 (min v B) ∧ max 0 (min v B) ≤ max 0 B
    ∧ (0 ≤ v → v ≤ max 0 B → max 0 (min v B) = v) := by
  refine ⟨le_max_left 0 _, max_le_max le_rfl (min_le_right v B), ?_⟩
  intro hv hvB
  rcases le_total 0 B with hB | hB
  · rw [max_eq_right hB] at hvB
    rw [min_eq_left hvB, max_eq_right hv]
  · rw [max_eq_left hB] at hvB
    have hv0 : v = 0 := le_antisymm hvB hv
    subst hv0
    rw [min_eq_right hB, max_eq_left hB]

/-- C4: with a local player present, `updateCamera` leaves each camera axis
in `[0, max 0 (world - viewport)]` (collapsing to 0 when the world is
smaller than the viewport), and yields exactly the centered value
`player - viewport / 2` whenever that value already lies in the interval. -/
theorem camera_clamp (st : GameState) (p : Player) (h : st.myPlayer = some p) :
    (0 ≤ (updateCamera st).cameraX
      ∧ (updateCamera st).cameraX ≤ max 0 (st.worldWidth - st.canvasWidth)
      ∧ (0 ≤ p.x - st.canvasWidth / 2 →
          p.x - st.canvasWidth / 2 ≤ max 0 (st.worldWidth - st.canvasWidth) →
          (updateCamera st).cameraX = p.x - st.canvasWidth / 2))
    ∧ (0 ≤ (updateCamera st).cameraY
      ∧ (updateCamera st).cameraY ≤ max 0 (st.worldHeight - st.canvasHeight)
      ∧ (0 ≤ p.y - st.canvasHeight / 2 →
          p.y - st.canvasHeight / 2 ≤ max 0 (st.worldHeight - st.canvasHeight) →
          (updateCamera st).cameraY = p.y - st.canvasHeight / 2)) := by
  have hx := clamp_bounds (p.x - st.canvasWidth / 2) (st.worldWidth - st.canvasWidth)
  have hy := clamp_bounds (p.y - st.canvasHeight / 2) (st.worldHeight - st.canvasHeight)
  have hup : updateCamera st
      = { st with
          cameraX := max 0 (min (p.x - st.canvasWidth / 2) (st.worldWidth - st.canvasWidth)),
          cameraY := max 0 (min (p.y - st.canvasHeight / 2) (st.worldHeight - st.canvasHeight)) } := by
    simp [updateCamera, h]
  rw [hup]
  exact ⟨⟨hx.1, hx.2.1, hx.2.2⟩, hy.1, hy.2.1, hy.2.2⟩

/-- Witness for C4: a player at (1000, 1000) with an 800 × 600 viewport in
the 2048 × 2048 world gives camera (600, 700); a 100 × 100 world collapses
the X axis to 0. -/
theorem camera_clamp_witness :
    (0 ≤ (updateCamera camInteriorState).cameraX
      ∧ (updateCamera camInteriorState).cameraX = 600)
    ∧ (updateCamera camSmallWorldState).cameraX = 0 := by
  have hA := camera_clamp camInteriorState p1Moved rfl
  have hB := camera_clamp camSmallWorldState p1Moved rfl
  refine ⟨⟨hA.1.1, ?_⟩, ?_⟩
  · have hx := hA.1.2.2
      (by norm_num [p1Moved, camInteriorState, baseState])
      (by norm_num [p1Moved, camInteriorState, baseState, le_max_iff])
    rw [hx]
    norm_num [p1Moved, camInteriorState, baseState]
  · have h0 := hB.1.1
    have h1 := hB.1.2.1
    have hsub : camSmallWorldState.worldWidth - camSmallWorldState.canvasWidth
        = (-700 : Rat) := by
      norm_num [camSmallWorldState, baseState]
    rw [hsub, max_eq_left (by norm_num : (-700 : Rat) ≤ 0)] at h1
    exact le_antisymm h1 h0

/-- C5: with an open socket, `handleKeyDown` emits exactly one move intent
on a movement key's transition from not-pressed to pressed and nothing on a
repeat or a non-movement key, and `handleKeyUp` emits exactly one stop
intent precisely when removing the key empties the pressed set; in the
concrete scenarios, holding one arrow emits one move and its release one
stop, and of two held arrows only the second release emits the stop. -/
theorem key_edge_semantics (s : InputState) (k d : String) (hw : s.wsOpen = true) :
    (getDirectionFromKey k = some d → s.pressedKeys.contains k = false →
      (handleKeyDown s k).2 = [OutMsg.move d]
      ∧ (handleKeyDown s k).1.pressedKeys = s.pressedKeys ++ [k])
    ∧ (s.pressedKeys.contains k = true → (handleKeyDown s k).2 = [])
    ∧ (getDirectionFromKey k = none →
      (handleKeyDown s k).2 = [] ∧ (handleKeyUp s k).2 = [])
    ∧ (getDirectionFromKey k = some d → s.pressedKeys.contains k = true →
      ((s.pressedKeys.filter (fun x => x != k)).isEmpty = true →
        (handleKeyUp s k).2 = [OutMsg.stop])
      ∧ ((s.pressedKeys.filter (fun x => x != k)).isEmpty = false →
        (handleKeyUp s k).2 = []))
    ∧ (s.pressedKeys.contains k = false → (handleKeyUp s k).2 = [])
    ∧ (runKeys initInput
        [KeyEvent.down "ArrowUp", KeyEvent.down "ArrowUp", KeyEvent.up "ArrowUp"]).2
      = [OutMsg.move "up", OutMsg.stop]
    ∧ (runKeys initInput
        [KeyEvent.down "ArrowUp", KeyEvent.down "ArrowLeft",
          KeyEvent.up "ArrowUp", KeyEvent.up "ArrowLeft"]).2
      = [OutMsg.move "up", OutMsg.move "left", OutMsg.stop] := by
  refine ⟨?_, ?_, ?_, ?_, ?_, by decide, by decide⟩
  · intro hd hc
    simp at hc
    simp [handleKeyDown, hd, hc, sendMoveCommand, hw]
  · intro hc
    simp at hc
    cases hdir : getDirectionFromKey k with
    | none => simp [handleKeyDown, hdir]
    | some d2 => simp [handleKeyDown, hdir, hc]
  · intro hd
    simp [handleKeyDown, handleKeyUp, hd]
  · intro hd hc
    simp at hc
    constructor
    · intro he
      simp at he
      simp [handleKeyUp, hd, hc, sendStopCommand, hw, if_pos he]
    · intro he
      simp at he
      obtain ⟨xx, hx1, hx2⟩ := he
      have hnall : ¬ ∀ a ∈ s.pressedKeys, a = k := fun hall => hx2 (hall xx hx1)
      simp [handleKeyUp, hd, hc, hnall]
  · intro hc
    simp at hc
    cases hdir : getDirectionFromKey k with
    | none => simp [handleKeyUp, hdir]
    | some d2 => simp [handleKeyUp, hdir, hc]

/-- Witness for C5: a fresh press emits one move; releasing the only held
key emits one stop. -/
theorem key_edge_semantics_witness :
    (handleKeyDown initInput "ArrowUp").2 = [OutMsg.move "up"]
    ∧ (handleKeyUp heldInput "ArrowUp").2 = [OutMsg.stop] :=
  ⟨((key_edge_semantics initInput "ArrowUp" "up" rfl).1 rfl rfl).1,
   (((key_edge_semantics heldInput "ArrowUp" "up" rfl).2.2.2.1 rfl rfl).1 (by decide))⟩

/-- C9: preloading an avatar that is not yet cached issues exactly one image
fetch per (direction, frame) pair, marks it loaded, and preserves every
already-loaded identifier; a second preload of the same avatar is a complete
no-op with zero fetches, so `hasLoaded` is stable. -/
theorem avatar_load_idempotent (st : GameState) (a : Avatar) (x : String)
    (h : hasLoaded st a.name = false) :
    (loadAvatarImage st a).2.length = totalFrameCount a
    ∧ loadAvatarImage (loadAvatarImage st a).1 a = ((loadAvatarImage st a).1, [])
    ∧ hasLoaded (loadAvatarImage st a).1 a.name = true
    ∧ (hasLoaded st x = true → hasLoaded (loadAvatarImage st a).1 x = true) := by
  simp only [hasLoaded] at h
  have hload : loadAvatarImage st a
      = ({ st with avatarImages := st.avatarImages.set a.name ⟨a.name, a.frames⟩ },
         a.frames.flatMap (fun df => df.2.map Effect.fetchImage)) := by
    simp [loadAvatarImage, h]
  refine ⟨?_, ?_, ?_, ?_⟩
  · rw [hload]
    simp [totalFrameCount, Function.comp_def]
  · rw [hload]
    simp [loadAvatarImage, JsMap.hasKey_set_self]
  · rw [hload]
    simp [hasLoaded, JsMap.hasKey_set_self]
  · intro hx
    rw [hload]
    simp only [hasLoaded] at hx ⊢
    exact JsMap.hasKey_set_of _ _ _ _ hx

/-- Witness for C9 on a concrete cache holding only avatar "b" and the
two-direction avatar "a". -/
theorem avatar_load_idempotent_witness :
    (loadAvatarImage cacheState avatarA).2.length = totalFrameCount avatarA
    ∧ hasLoaded (loadAvatarImage cacheState avatarA).1 "b" = true :=
  ⟨(avatar_load_idempotent cacheState avatarA "b" (by decide)).1,
   (avatar_load_idempotent cacheState avatarA "b" (by decide)).2.2.2 (by decide)⟩

/-- C1 (code-bug evaluation): after joining as `p1` at (100, 100) with an
800 × 600 viewport in the 2048 × 2048 world, a `players_moved` batch moving
`p1` to (1000, 1000) upserts the new record into `allPlayers`, yet
`this.myPlayer` still holds the stale join-time record (the `players_moved`
handler stores a fresh object and never refreshes `this.myPlayer`), so the
`updateCamera` call at the end of the batch leaves the camera at (0, 0)
instead of the claimed clamped center (600, 700) on the new position. -/
theorem camera_stale_after_players_moved :
    stateAfterMove.allPlayers.get? "p1" = some p1Moved
    ∧ stateAfterMove.myPlayer = some p1AtJoin
    ∧ stateAfterMove.cameraX = 0 ∧ stateAfterMove.cameraY = 0
    ∧ ¬ (stateAfterMove.cameraX = 600 ∧ stateAfterMove.cameraY = 700) := by
  have hcx : stateAfterMove.cameraX
      = max 0 (min ((100 : Rat) - 800 / 2) ((2048 : Rat) - 800)) := rfl
  have hcy : stateAfterMove.cameraY
      = max 0 (min ((100 : Rat) - 600 / 2) ((2048 : Rat) - 600)) := rfl
  have hx0 : max 0 (min ((100 : Rat) - 800 / 2) ((2048 : Rat) - 800)) = 0 := by
    rw [min_eq_left (by norm_num), max_eq_left (by norm_num)]
  have hy0 : max 0 (min ((100 : Rat) - 600 / 2) ((2048 : Rat) - 600)) = 0 := by
    rw [min_eq_left (by norm_num), max_eq_left (by norm_num)]
  refine ⟨rfl, rfl, ?_, ?_, ?_⟩
  · rw [hcx, hx0]
  · rw [hcy, hy0]
  · rw [hcx, hx0, hcy, hy0]
    norm_num
